import Mathlib

/-!
Verification of the `PlotDataSet` core of SFGraphing
(`include/SFGraphing/PlotDataSet.h`), a shallow embedding of the data
container `csrc::PlotDataSet` and of the static reshaping helper
`PlotDataSet::MultiPlotDatSet`.

Modelling conventions:
* coordinate values are an arbitrary type `α` standing for the stored
  `float` values after the constructor's element-wise conversion
  (no arithmetic is ever performed on them);
* `sf::Color` is modelled by its four channels;
* C++ `std::vector` reads via `operator[]` are modelled by `List` lookups;
  an out-of-bounds access (undefined behaviour in the source) is the
  distinguished outcome `BuildError.oob`;
* `throw std::runtime_error(msg)` is `BuildError.runtimeError msg`
  (recoverable / catchable);
* `exit(1)` in the data constructor is modelled by the constructor
  returning `none`; inside `MultiPlotDatSet` it surfaces as
  `BuildError.fatal`.
-/

/-- The four channels of an `sf::Color` value. -/
structure Color where
  r : Nat
  g : Nat
  b : Nat
  a : Nat
deriving DecidableEq

/-- The `csrc::PlottingType` enumeration. -/
inductive PlottingType where
  | POINTS
  | LINE
  | BARS
deriving DecidableEq

/-- The `csrc::PlotDataSet` value object: paired coordinate vectors plus
style metadata.  `α` is the stored coordinate type (source: `float`). -/
structure PlotDataSet (α : Type) where
  xValues : List α
  yValues : List α
  color : Color
  label : String
  pType : PlottingType
deriving DecidableEq

/-- Modelled from the spec: the body of the default constructor
`PlotDataSet::PlotDataSet()` is declared in the header but defined in a
source file that is not part of `src/`; per the spec it creates an empty
dataset with default metadata (`sf::Color()` is opaque black, empty label). -/
def PlotDataSet.emptySet {α : Type} : PlotDataSet α :=
  { xValues := [], yValues := [], color := ⟨0, 0, 0, 255⟩, label := "",
    pType := PlottingType.POINTS }

/-- The templated data constructor
`PlotDataSet(xValues, yValues, color, label, type)`: stores both vectors
(after conversion, which the embedding treats as already applied) and
calls `exit(1)` — modelled as `none` — when the sizes differ. -/
def PlotDataSet.make {α : Type} (xs ys : List α) (c : Color) (lab : String)
    (t : PlottingType) : Option (PlotDataSet α) :=
  if xs.length = ys.length then
    some { xValues := xs, yValues := ys, color := c, label := lab, pType := t }
  else
    none

/-- Modelled from the spec: `GetDataLength` is declared in the header but its
body is not under `src/`; per the header doc it returns `_xValues.size()`
(x and y are always the same size). -/
def PlotDataSet.GetDataLength {α : Type} (d : PlotDataSet α) : Nat :=
  d.xValues.length

/-- Modelled from the spec: `GetDataValue` is declared in the header but its
body is not under `src/`; per the header doc it returns the value pair at
index `i`; out of range is undefined, modelled as `none`. -/
def PlotDataSet.GetDataValue {α : Type} (d : PlotDataSet α) (i : Nat) :
    Option (α × α) :=
  match d.xValues[i]?, d.yValues[i]? with
  | some x, some y => some (x, y)
  | _, _ => none

/-- Outcomes of `MultiPlotDatSet` beyond a normal return. -/
inductive BuildError where
  /-- `throw std::runtime_error(msg)`: recoverable, catchable. -/
  | runtimeError (msg : String)
  /-- An out-of-bounds `std::vector::operator[]` access (undefined
  behaviour in the source, not a catchable error). -/
  | oob
  /-- `exit(1)` reached through the data constructor. -/
  | fatal
deriving DecidableEq

/-- A `MultiPlotDatSet` argument as classified by the compile-time
`is_iterable` dispatch: either a flat vector of numbers or a vector of
vectors. -/
inductive NumInput (α : Type) where
  | flat (xs : List α)
  | nested (xss : List (List α))

/-- Sequences a list of optional values, stopping at the first `none`
(the first out-of-bounds access of the corresponding C++ loop). -/
def seqOpt {α : Type} : List (Option α) → Option (List α)
  | [] => some []
  | none :: _ => none
  | some a :: rest =>
    match seqOpt rest with
    | none => none
    | some l2 => some (a :: l2)

/-- Sequences a list of `Except` computations, stopping at the first
error (the first throw / trap of the corresponding C++ loop). -/
def collectE {ε α : Type} : List (Except ε α) → Except ε (List α)
  | [] => Except.ok []
  | Except.error e :: _ => Except.error e
  | Except.ok a :: rest =>
    match collectE rest with
    | Except.error e => Except.error e
    | Except.ok l2 => Except.ok (a :: l2)

/-- The transpose loop of `MultiPlotDatSet`:
`data[i][j] = rows[j][i]` for `i < m`, `j < n`, with `none` when any
access is out of bounds. -/
def transposeAt {α : Type} (rows : List (List α)) (m n : Nat) :
    Option (List (List α)) :=
  seqOpt ((List.range m).map (fun i =>
    seqOpt ((List.range n).map (fun j =>
      (rows[j]?).bind (fun row => row[i]?)))))

/-- The `!is_iterable<T_y> && !is_iterable<T_x>` branch: a single dataset
built by the (fatal-on-mismatch) data constructor, labelled
`labels.empty() ? "" : labels[0]`. -/
def buildFlatFlat {α : Type} (xs ys : List α) (c : Color) (t : PlottingType)
    (labels : List String) : Except BuildError (List (PlotDataSet α)) :=
  match PlotDataSet.make xs ys c (labels.headD "") t with
  | none => Except.error BuildError.fatal
  | some d => Except.ok [d]

/-- The `is_iterable<T_y> && !is_iterable<T_x>` branch (several Y series
for one X axis), mirroring the source statement by statement:
`yValues[0].size()` is read before the `sz == 0` check; the output vector
is allocated with `sz = xValues.size()` entries while the assignment loop
runs over `internal_sz = yValues[0].size()` entries. -/
def buildScalarNested {α : Type} (xs : List α) (yss : List (List α))
    (c : Color) (t : PlottingType) (labels : List String) :
    Except BuildError (List (PlotDataSet α)) :=
  let sz := xs.length
  match yss.head? with
  | none => Except.error BuildError.oob
  | some y0 =>
    let internal_sz := y0.length
    if sz = 0 then Except.error (BuildError.runtimeError "Empty y value data")
    else
      let labels_sz := labels.length
      match transposeAt yss internal_sz sz with
      | none => Except.error BuildError.oob
      | some data =>
        if sz < internal_sz then Except.error BuildError.oob
        else
          collectE ((List.range sz).map (fun i =>
            if i < internal_sz then
              match PlotDataSet.make xs (data.getD i []) c
                  (if i < labels_sz then labels.getD i "" else "") t with
              | none => Except.error BuildError.fatal
              | some d => Except.ok d
            else Except.ok PlotDataSet.emptySet))

/-- The `is_iterable<T_x> && is_iterable<T_y>` branch (several paired X/Y
series), mirroring the source: `yValues[0].size()` read before the
dimension check; transposes sized `internal_sz`; assignment loop runs
over `sz` entries and reads `xdata[i]`, `ydata[i]` — out of bounds as
soon as `sz > internal_sz`. -/
def buildNestedNested {α : Type} (xss yss : List (List α)) (c : Color)
    (t : PlottingType) (labels : List String) :
    Except BuildError (List (PlotDataSet α)) :=
  let sz := xss.length
  match yss.head? with
  | none => Except.error BuildError.oob
  | some y0 =>
    let internal_sz := y0.length
    if yss.length ≠ sz then
      Except.error (BuildError.runtimeError
        "Mismatching dataset sizes for mutliplot, set dimension of Xmust be one, or match set dimension of Y")
    else
      let labels_sz := labels.length
      match transposeAt xss internal_sz sz, transposeAt yss internal_sz sz with
      | some xdata, some ydata =>
        if internal_sz < sz then Except.error BuildError.oob
        else
          collectE ((List.range sz).map (fun i =>
            match PlotDataSet.make (xdata.getD i []) (ydata.getD i []) c
                (if i < labels_sz then labels.getD i "" else "") t with
            | none => Except.error BuildError.fatal
            | some d => Except.ok d))
      | _, _ => Except.error BuildError.oob

/-- `PlotDataSet::MultiPlotDatSet`, dispatching on the `is_iterable`
classification of both arguments exactly as the `if constexpr` chain does;
the unhandled x-nested / y-flat combination falls through to `return {}`. -/
def MultiPlotDatSet {α : Type} (x y : NumInput α) (c : Color)
    (t : PlottingType) (labels : List String) :
    Except BuildError (List (PlotDataSet α)) :=
  match x, y with
  | NumInput.flat xs, NumInput.flat ys => buildFlatFlat xs ys c t labels
  | NumInput.flat xs, NumInput.nested yss => buildScalarNested xs yss c t labels
  | NumInput.nested xss, NumInput.nested yss => buildNestedNested xss yss c t labels
  | NumInput.nested _, NumInput.flat _ => Except.ok []

/-- A concrete color used by witnesses and counterexamples. -/
def cWit : Color := ⟨10, 20, 30, 40⟩

/-- Claim C5: constructing a `PlotDataSet` from sequences of differing
lengths terminates the process (modelled: the constructor returns `none`),
and no container with mismatched lengths is ever observable from it. -/
theorem C5_mismatch_fatal {α : Type} (xs ys : List α) (c : Color)
    (lab : String) (t : PlottingType) (h : xs.length ≠ ys.length) :
    PlotDataSet.make xs ys c lab t = none ∧
      ∀ d : PlotDataSet α, PlotDataSet.make xs ys c lab t ≠ some d := by
  refine ⟨?_, ?_⟩
  · simp [PlotDataSet.make, h]
  · intro d hd
    rw [PlotDataSet.make, if_neg h] at hd
    exact Option.noConfusion hd

/-- Witness for C5 at `xs = [1]`, `ys = []`. -/
theorem C5_mismatch_fatal_witness :
    PlotDataSet.make [(1 : Int)] [] cWit "" PlottingType.POINTS = none ∧
      ∀ d : PlotDataSet Int,
        PlotDataSet.make [(1 : Int)] [] cWit "" PlottingType.POINTS ≠ some d :=
  C5_mismatch_fatal [(1 : Int)] [] cWit "" PlottingType.POINTS (by decide)

/-- Claim C6: with both inputs flat and of equal length, `MultiPlotDatSet`
returns exactly one container pairing `xValues` with `yValues`, labelled
`labels[0]` when labels is non-empty and `""` otherwise
(`List.headD labels ""` is exactly `labels.empty() ? "" : labels[0]`). -/
theorem C6_scalar_scalar {α : Type} (xs ys : List α) (c : Color)
    (t : PlottingType) (labels : List String) (h : xs.length = ys.length) :
    MultiPlotDatSet (NumInput.flat xs) (NumInput.flat ys) c t labels =
      Except.ok [{ xValues := xs, yValues := ys, color := c,
                   label := labels.headD "", pType := t }] := by
  simp [MultiPlotDatSet, buildFlatFlat, PlotDataSet.make, h]

/-- Witness for C6 at `xs = [1, 2]`, `ys = [3, 4]`, `labels = ["a"]`. -/
theorem C6_scalar_scalar_witness :
    MultiPlotDatSet (NumInput.flat [(1 : Int), 2]) (NumInput.flat [3, 4]) cWit
        PlottingType.BARS ["a"] =
      Except.ok [{ xValues := [(1 : Int), 2], yValues := [3, 4], color := cWit,
                   label := (["a"] : List String).headD "",
                   pType := PlottingType.BARS }] :=
  C6_scalar_scalar [(1 : Int), 2] [3, 4] cWit PlottingType.BARS ["a"] (by decide)

/-- Claim C8: whenever `xValues` is nested and `yValues` is flat,
`MultiPlotDatSet` falls through every `if constexpr` branch and returns
the empty collection without any error. -/
theorem C8_nested_flat_empty {α : Type} (xss : List (List α)) (ys : List α)
    (c : Color) (t : PlottingType) (labels : List String) :
    MultiPlotDatSet (NumInput.nested xss) (NumInput.flat ys) c t labels =
      Except.ok [] := rfl

/-- Claim C9: in both nested build paths `yValues[0].size()` is evaluated
before any emptiness or dimension check, so an empty nested `yValues`
always produces an out-of-bounds first-element access (for every shape of
`xValues`, including an empty one) instead of a recoverable error. -/
theorem C9_empty_nested_y {α : Type} (x : NumInput α) (c : Color)
    (t : PlottingType) (labels : List String) :
    MultiPlotDatSet x (NumInput.nested []) c t labels =
      Except.error BuildError.oob := by
  cases x <;> rfl

/-- Counterexample to claim C3 as stated: with `xValues = []` and the
nested `yValues` also empty, the scalar-nested path performs the
out-of-bounds access `yValues[0]` (undefined behaviour) before reaching
the `sz == 0` check, so no recoverable runtime error is raised. -/
theorem C3_counterexample :
    MultiPlotDatSet (NumInput.flat ([] : List Int)) (NumInput.nested []) cWit
        PlottingType.LINE [] = Except.error BuildError.oob := rfl

/-- Claim C3 (amended): in the scalar-nested path, whenever `xValues` is
empty and the nested `yValues` is non-empty, `MultiPlotDatSet` throws the
catchable `std::runtime_error("Empty y value data")`. -/
theorem C3_empty_x_raises {α : Type} (yss : List (List α)) (c : Color)
    (t : PlottingType) (labels : List String) (h : yss ≠ []) :
    MultiPlotDatSet (NumInput.flat ([] : List α)) (NumInput.nested yss) c t
        labels =
      Except.error (BuildError.runtimeError "Empty y value data") := by
  match yss, h with
  | y0 :: rest, _ => rfl

/-- Witness for the amended C3 at `yss = [[5]]`. -/
theorem C3_empty_x_raises_witness :
    MultiPlotDatSet (NumInput.flat ([] : List Int)) (NumInput.nested [[5]])
        cWit PlottingType.LINE [] =
      Except.error (BuildError.runtimeError "Empty y value data") :=
  C3_empty_x_raises [[5]] cWit PlottingType.LINE [] (by decide)

/-- Counterexample to claim C4 as stated: with nested `xValues = [[1]]`
and nested `yValues = []` the outer lengths differ (1 versus 0), yet the
function performs the out-of-bounds access `yValues[0]` (undefined
behaviour) before the dimension check, so no recoverable runtime error is
raised. -/
theorem C4_counterexample :
    MultiPlotDatSet (NumInput.nested [[(1 : Int)]]) (NumInput.nested []) cWit
        PlottingType.BARS [] = Except.error BuildError.oob := rfl

/-- Claim C4 (amended): in the nested-nested path, whenever the nested
`yValues` is non-empty and the outer lengths of `xValues` and `yValues`
differ, `MultiPlotDatSet` throws a catchable `std::runtime_error` whose
message states that X's set dimension must be one or match Y's. -/
theorem C4_mismatch_raises {α : Type} (xss yss : List (List α)) (c : Color)
    (t : PlottingType) (labels : List String) (hne : yss ≠ [])
    (hlen : yss.length ≠ xss.length) :
    MultiPlotDatSet (NumInput.nested xss) (NumInput.nested yss) c t labels =
      Except.error (BuildError.runtimeError
        "Mismatching dataset sizes for mutliplot, set dimension of Xmust be one, or match set dimension of Y") := by
  match yss, hne with
  | y0 :: rest, _ =>
    simp only [MultiPlotDatSet, buildNestedNested, List.head?]
    rw [if_pos hlen]

/-- Witness for the amended C4 at `xss = [[1]]`, `yss = [[2], [3]]`. -/
theorem C4_mismatch_raises_witness :
    MultiPlotDatSet (NumInput.nested [[(1 : Int)]])
        (NumInput.nested [[2], [3]]) cWit PlottingType.LINE [] =
      Except.error (BuildError.runtimeError
        "Mismatching dataset sizes for mutliplot, set dimension of Xmust be one, or match set dimension of Y") :=
  C4_mismatch_raises [[(1 : Int)]] [[2], [3]] cWit PlottingType.LINE []
    (by decide) (by decide)

/-- Claim C1, evaluated at its own example (code bug): for
`X = [1,2,3]`, `Y = [[10,20],[11,21],[12,22]]` the claim demands exactly
2 containers, but the output vector is allocated with
`xValues.size() = 3` entries and only 2 are assigned, so the call returns
3 containers whose third is a default-constructed empty dataset. -/
theorem C1_example_returns_three :
    MultiPlotDatSet (NumInput.flat [(1 : Int), 2, 3])
        (NumInput.nested [[10, 20], [11, 21], [12, 22]]) cWit
        PlottingType.LINE [] =
      Except.ok
        [{ xValues := [(1 : Int), 2, 3], yValues := [10, 11, 12],
           color := cWit, label := "", pType := PlottingType.LINE },
         { xValues := [(1 : Int), 2, 3], yValues := [20, 21, 22],
           color := cWit, label := "", pType := PlottingType.LINE },
         PlotDataSet.emptySet] := rfl

/-- Claim C2, evaluated at its own example (code bug): for
`X = [[1,1],[2,2],[3,3]]`, `Y = [[10,20],[11,21],[12,22]]` the claim
demands 2 containers, but the final loop runs `i < xValues.size() = 3`
over transposes that have only `yValues[0].size() = 2` entries, so
`xdata[2]` is an out-of-bounds access (undefined behaviour). -/
theorem C2_example_oob :
    MultiPlotDatSet (NumInput.nested [[(1 : Int), 1], [2, 2], [3, 3]])
        (NumInput.nested [[10, 20], [11, 21], [12, 22]]) cWit
        PlottingType.LINE [] = Except.error BuildError.oob := rfl

theorem seqOpt_length {α : Type} :
    ∀ (l : List (Option α)) (out : List α),
      seqOpt l = some out → out.length = l.length
  | [], out, h => by
      simp only [seqOpt, Option.some.injEq] at h
      simp [← h]
  | none :: rest, out, h => by
      simp only [seqOpt] at h
      exact Option.noConfusion h
  | some a :: rest, out, h => by
      simp only [seqOpt] at h
      cases hr : seqOpt rest with
      | none => rw [hr] at h; exact Option.noConfusion h
      | some l2 =>
          rw [hr] at h
          simp only [Option.some.injEq] at h
          subst h
          simp [seqOpt_length rest l2 hr]

theorem seqOpt_getElem {α : Type} :
    ∀ (l : List (Option α)) (out : List α), seqOpt l = some out →
      ∀ i : Nat, l[i]? = (out[i]?).map some
  | [], out, h, i => by
      simp only [seqOpt, Option.some.injEq] at h
      subst h
      simp
  | none :: rest, out, h, i => by
      simp only [seqOpt] at h
      exact Option.noConfusion h
  | some a :: rest, out, h, i => by
      simp only [seqOpt] at h
      cases hr : seqOpt rest with
      | none => rw [hr] at h; exact Option.noConfusion h
      | some l2 =>
          rw [hr] at h
          simp only [Option.some.injEq] at h
          subst h
          cases i with
          | zero => simp
          | succ j => simpa using seqOpt_getElem rest l2 hr j

theorem seqOpt_all_some {α : Type} :
    ∀ (l : List (Option α)), (∀ x ∈ l, ∃ a, x = some a) →
      ∃ out, seqOpt l = some out
  | [], _ => ⟨[], rfl⟩
  | none :: rest, h => by
      obtain ⟨a, ha⟩ := h none (List.mem_cons_self _ _)
      exact Option.noConfusion ha
  | some a :: rest, h => by
      obtain ⟨out, ho⟩ :=
        seqOpt_all_some rest (fun x hx => h x (List.mem_cons_of_mem _ hx))
      refine ⟨a :: out, ?_⟩
      simp only [seqOpt, ho]

theorem collectE_length {ε α : Type} :
    ∀ (l : List (Except ε α)) (out : List α),
      collectE l = Except.ok out → out.length = l.length
  | [], out, h => by
      simp only [collectE, Except.ok.injEq] at h
      simp [← h]
  | Except.error e :: rest, out, h => by
      simp only [collectE] at h
      exact Except.noConfusion h
  | Except.ok a :: rest, out, h => by
      simp only [collectE] at h
      cases hr : collectE rest with
      | error e => rw [hr] at h; exact Except.noConfusion h
      | ok l2 =>
          rw [hr] at h
          simp only [Except.ok.injEq] at h
          subst h
          simp [collectE_length rest l2 hr]

theorem collectE_getElem {ε α : Type} :
    ∀ (l : List (Except ε α)) (out : List α), collectE l = Except.ok out →
      ∀ i : Nat, l[i]? = (out[i]?).map Except.ok
  | [], out, h, i => by
      simp only [collectE, Except.ok.injEq] at h
      subst h
      simp
  | Except.error e :: rest, out, h, i => by
      simp only [collectE] at h
      exact Except.noConfusion h
  | Except.ok a :: rest, out, h, i => by
      simp only [collectE] at h
      cases hr : collectE rest with
      | error e => rw [hr] at h; exact Except.noConfusion h
      | ok l2 =>
          rw [hr] at h
          simp only [Except.ok.injEq] at h
          subst h
          cases i with
          | zero => simp
          | succ j => simpa using collectE_getElem rest l2 hr j

theorem collectE_all_ok {ε α : Type} :
    ∀ (l : List (Except ε α)), (∀ x ∈ l, ∃ a, x = Except.ok a) →
      ∃ out, collectE l = Except.ok out
  | [], _ => ⟨[], rfl⟩
  | Except.error e :: rest, h => by
      obtain ⟨a, ha⟩ := h (Except.error e) (List.mem_cons_self _ _)
      exact Except.noConfusion ha
  | Except.ok a :: rest, h => by
      obtain ⟨out, ho⟩ :=
        collectE_all_ok rest (fun x hx => h x (List.mem_cons_of_mem _ hx))
      refine ⟨a :: out, ?_⟩
      simp only [collectE, ho]

theorem transposeAt_some {α : Type} (rows : List (List α)) (m n : Nat)
    (hn : n ≤ rows.length) (hm : ∀ r ∈ rows, m ≤ r.length) :
    ∃ data, transposeAt rows m n = some data ∧ data.length = m ∧
      ∀ d ∈ data, d.length = n := by
  have hinner : ∀ i, i < m →
      ∃ col, seqOpt ((List.range n).map (fun j =>
          (rows[j]?).bind (fun row => row[i]?))) = some col ∧
        col.length = n := by
    intro i hi
    have hall : ∀ x ∈ (List.range n).map (fun j =>
        (rows[j]?).bind (fun row => row[i]?)), ∃ a, x = some a := by
      intro x hxm
      obtain ⟨j, hj, rfl⟩ := List.mem_map.mp hxm
      have hjn : j < n := List.mem_range.mp hj
      have hjr : j < rows.length := Nat.lt_of_lt_of_le hjn hn
      have hrj : rows[j]? = some rows[j] := List.getElem?_eq_getElem hjr
      have hmemr : rows[j] ∈ rows := List.getElem_mem hjr
      have hir : i < rows[j].length := Nat.lt_of_lt_of_le hi (hm _ hmemr)
      refine ⟨rows[j][i], ?_⟩
      rw [hrj]
      simp [List.getElem?_eq_getElem hir]
    obtain ⟨col, hc⟩ := seqOpt_all_some _ hall
    refine ⟨col, hc, ?_⟩
    rw [seqOpt_length _ _ hc]
    simp
  have hallout : ∀ x ∈ (List.range m).map (fun i =>
      seqOpt ((List.range n).map (fun j =>
        (rows[j]?).bind (fun row => row[i]?)))), ∃ a, x = some a := by
    intro x hxm
    obtain ⟨i, hi, rfl⟩ := List.mem_map.mp hxm
    obtain ⟨col, hc, _⟩ := hinner i (List.mem_range.mp hi)
    exact ⟨col, hc⟩
  obtain ⟨data, hd⟩ := seqOpt_all_some _ hallout
  refine ⟨data, hd, ?_, ?_⟩
  · rw [seqOpt_length _ _ hd]
    simp
  · intro d hdm
    obtain ⟨i, hdi⟩ := List.mem_iff_getElem?.mp hdm
    have hrel := seqOpt_getElem _ _ hd i
    rw [hdi] at hrel
    simp only [Option.map_some'] at hrel
    have him : i < m := by
      obtain ⟨hl, _⟩ := List.getElem?_eq_some_iff.mp hrel
      simpa using hl
    rw [List.getElem?_map, List.getElem?_range him] at hrel
    simp only [Option.map_some', Option.some.injEq] at hrel
    obtain ⟨col, hc, hclen⟩ := hinner i him
    rw [hc] at hrel
    rw [← Option.some.inj hrel]
    exact hclen

theorem buildScalarNested_eq_of_transposed {α : Type} (xs : List α)
    (y0 : List α) (rest : List (List α)) (c : Color) (t : PlottingType)
    (labels : List String) (data : List (List α)) (hx0 : xs.length ≠ 0)
    (hdt : transposeAt (y0 :: rest) y0.length xs.length = some data) :
    buildScalarNested xs (y0 :: rest) c t labels =
      if xs.length < y0.length then Except.error BuildError.oob
      else
        collectE ((List.range xs.length).map (fun i =>
          if i < y0.length then
            match PlotDataSet.make xs (data.getD i []) c
                (if i < labels.length then labels.getD i "" else "") t with
            | none => Except.error BuildError.fatal
            | some d => Except.ok d
          else Except.ok PlotDataSet.emptySet)) := by
  simp only [buildScalarNested, List.head?, if_neg hx0, hdt]

/-- Claim C7: for equal-length sequences the data constructor succeeds and
the resulting container satisfies `GetDataLength = |X| = |Y|` and
`GetDataValue i = (X[i], Y[i])` (the stored values) for every index in
range. -/
theorem C7_ctor_roundtrip {α : Type} (xs ys : List α) (c : Color)
    (lab : String) (t : PlottingType) (h : xs.length = ys.length) :
    ∃ d : PlotDataSet α, PlotDataSet.make xs ys c lab t = some d ∧
      d.GetDataLength = xs.length ∧ d.GetDataLength = ys.length ∧
      ∀ i, i < xs.length → ∃ x y, xs[i]? = some x ∧ ys[i]? = some y ∧
        d.GetDataValue i = some (x, y) := by
  refine ⟨{ xValues := xs, yValues := ys, color := c, label := lab,
            pType := t }, ?_, rfl, h, ?_⟩
  · simp [PlotDataSet.make, h]
  · intro i hi
    have hi2 : i < ys.length := h ▸ hi
    have hx : xs[i]? = some (xs.get ⟨i, hi⟩) := by
      rw [List.getElem?_eq_getElem hi]
      simp [List.get_eq_getElem]
    have hy : ys[i]? = some (ys.get ⟨i, hi2⟩) := by
      rw [List.getElem?_eq_getElem hi2]
      simp [List.get_eq_getElem]
    refine ⟨_, _, hx, hy, ?_⟩
    simp only [PlotDataSet.GetDataValue]
    rw [hx, hy]

/-- Witness for C7 at `xs = [1, 2]`, `ys = [10, 20]`. -/
theorem C7_ctor_roundtrip_witness :
    ∃ d : PlotDataSet Int,
      PlotDataSet.make [(1 : Int), 2] [10, 20] cWit "w" PlottingType.POINTS =
        some d ∧
      d.GetDataLength = [(1 : Int), 2].length ∧
      d.GetDataLength = [(10 : Int), 20].length ∧
      ∀ i, i < [(1 : Int), 2].length →
        ∃ x y, [(1 : Int), 2][i]? = some x ∧ [(10 : Int), 20][i]? = some y ∧
          d.GetDataValue i = some (x, y) :=
  C7_ctor_roundtrip [(1 : Int), 2] [10, 20] cWit "w" PlottingType.POINTS rfl

/-- Claim C10: in the scalar-nested path the output vector is allocated
with `N = xValues.size()` entries while only `M = yValues[0].size()` are
assigned: for shape-consistent input with `M ≤ N` the call returns
exactly `N` containers whose entries at indices `M ≤ i < N` are
default-constructed empty datasets, and for `M > N` the assignment loop
indexes the output vector out of range. -/
theorem C10_alloc_size {α : Type} (xs : List α) (yss : List (List α))
    (y0 : List α) (c : Color) (t : PlottingType) (labels : List String)
    (hy : yss.head? = some y0) (hlen : yss.length = xs.length)
    (hrow : ∀ r ∈ yss, y0.length ≤ r.length) (hx : xs ≠ []) :
    (y0.length ≤ xs.length →
      ∃ out, MultiPlotDatSet (NumInput.flat xs) (NumInput.nested yss) c t
          labels = Except.ok out ∧ out.length = xs.length ∧
        ∀ i, y0.length ≤ i → i < xs.length →
          out[i]? = some (PlotDataSet.emptySet : PlotDataSet α)) ∧
    (xs.length < y0.length →
      MultiPlotDatSet (NumInput.flat xs) (NumInput.nested yss) c t labels =
        Except.error BuildError.oob) := by
  cases yss with
  | nil => exact Option.noConfusion hy
  | cons y0x rest =>
    have hy0 : y0 = y0x := by
      rw [List.head?_cons, Option.some.injEq] at hy
      exact hy.symm
    subst hy0
    have hx0 : xs.length ≠ 0 := by
      intro h0
      exact hx (List.length_eq_zero.mp h0)
    obtain ⟨data, hdt, hdlen, hdall⟩ :=
      transposeAt_some (y0 :: rest) y0.length xs.length hlen.ge hrow
    have hmp : MultiPlotDatSet (NumInput.flat xs)
        (NumInput.nested (y0 :: rest)) c t labels =
        buildScalarNested xs (y0 :: rest) c t labels := rfl
    rw [hmp, buildScalarNested_eq_of_transposed xs y0 rest c t labels data
      hx0 hdt]
    constructor
    · intro hMN
      rw [if_neg (Nat.not_lt.mpr hMN)]
      have hall : ∀ x ∈ (List.range xs.length).map (fun i =>
          if i < y0.length then
            match PlotDataSet.make xs (data.getD i []) c
                (if i < labels.length then labels.getD i "" else "") t with
            | none => Except.error BuildError.fatal
            | some d => Except.ok d
          else Except.ok (PlotDataSet.emptySet : PlotDataSet α)),
          ∃ b, x = Except.ok b := by
        intro x hxl
        obtain ⟨i, hi, rfl⟩ := List.mem_map.mp hxl
        by_cases hiM : i < y0.length
        · have hidata : i < data.length := by rw [hdlen]; exact hiM
          have hmem : data.getD i [] ∈ data := by
            rw [List.getD_eq_getElem?_getD, List.getElem?_eq_getElem hidata]
            exact List.getElem_mem hidata
          have hlen2 : (data.getD i []).length = xs.length := hdall _ hmem
          refine ⟨{ xValues := xs, yValues := data.getD i [], color := c,
                    label := if i < labels.length then labels.getD i ""
                      else "", pType := t }, ?_⟩
          rw [if_pos hiM]
          simp only [PlotDataSet.make]
          rw [if_pos hlen2.symm]
        · exact ⟨PlotDataSet.emptySet, by rw [if_neg hiM]⟩
      obtain ⟨out, hout⟩ := collectE_all_ok _ hall
      refine ⟨out, hout, ?_, ?_⟩
      · rw [collectE_length _ _ hout]
        simp
      · intro i hMi hiN
        have h1 := collectE_getElem _ _ hout i
        rw [List.getElem?_map, List.getElem?_range hiN] at h1
        simp only [Option.map_some'] at h1
        rw [if_neg (Nat.not_lt.mpr hMi)] at h1
        cases ho : out[i]? with
        | none => rw [ho] at h1; simp at h1
        | some v =>
            rw [ho] at h1
            simp only [Option.map_some', Except.ok.injEq,
              Option.some.injEq] at h1
            rw [← h1]
    · intro hNM
      rw [if_pos hNM]

/-- Witness for C10 at the spec's scalar-nested example (`N = 3`,
`M = 2`). -/
theorem C10_alloc_size_witness :
    (([10, 20] : List Int).length ≤ [(1 : Int), 2, 3].length →
      ∃ out, MultiPlotDatSet (NumInput.flat [(1 : Int), 2, 3])
          (NumInput.nested [[10, 20], [11, 21], [12, 22]]) cWit
          PlottingType.LINE [] = Except.ok out ∧
        out.length = [(1 : Int), 2, 3].length ∧
        ∀ i, ([10, 20] : List Int).length ≤ i →
          i < [(1 : Int), 2, 3].length →
          out[i]? = some (PlotDataSet.emptySet : PlotDataSet Int)) ∧
    ([(1 : Int), 2, 3].length < ([10, 20] : List Int).length →
      MultiPlotDatSet (NumInput.flat [(1 : Int), 2, 3])
          (NumInput.nested [[10, 20], [11, 21], [12, 22]]) cWit
          PlottingType.LINE [] = Except.error BuildError.oob) :=
  C10_alloc_size [(1 : Int), 2, 3] [[10, 20], [11, 21], [12, 22]] [10, 20]
    cWit PlottingType.LINE [] rfl rfl (by decide) (by decide)
